import Mathlib

/-!
Shallow embedding of src/backend/app/main.py (bike-model-detection).

The service exposes GET /healthz, GET /models, GET / and POST /detect.
POST /detect validates the upload's content type, decodes the image,
calls BikeDetectionModel.predict (which delegates to a remote
vision-language model and falls back to random scores over the fixed
label list when the remote call or response parsing raises), and wraps
everything in a route-level catch-all that converts any exception into
an HTTP 500.

Modelling conventions:
* Python floats are modelled as rationals (exact arithmetic).
* The remote call plus JSON extraction inside the try block of predict
  is abstracted as an `AdapterOutcome`: either an exception with a
  message, or a parsed predictions list.  Everything the code does to
  that parsed list (normalization, result shaping) is embedded from the
  source.
* np.random.random(len(BIKE_MODELS)) is modelled as an arbitrary score
  vector `raw : Fin BIKE_MODELS.length → ℚ` (one score per label);
  np.argsort is modelled as a mergeSort of the indices by value, with
  ties broken by index (numpy leaves tie order unspecified).
* os.getenv("OPENAI_API_KEY") is `Option String`; Python's falsiness
  of None and "" is `api_key.getD "" = ""`.
* FastAPI request handling: an HTTPException raised by a route is
  turned into an error response with its status code; the route's
  `except Exception` catches every exception, HTTPException included
  (starlette's HTTPException subclasses Exception, and its str() is
  "<status>: <detail>").
-/

namespace BikeDetection

/-- One entry of a predictions list: line 81 of the prompt / the dicts
built at lines 131-134 of main.py.  Confidence is a rational standing
for the Python float. -/
structure Prediction where
  model : String
  confidence : ℚ
  deriving Repr, DecidableEq

/-- The fixed candidate label list, main.py lines 27-38. -/
def BIKE_MODELS : List String :=
  ["Honda CBR600RR",
   "Yamaha YZF-R1",
   "Kawasaki Ninja ZX-10R",
   "Suzuki GSX-R1000",
   "Ducati Panigale V4",
   "BMW S1000RR",
   "Aprilia RSV4",
   "KTM RC 390",
   "Triumph Daytona 675",
   "MV Agusta F3"]

/-- GET /models handler, main.py lines 147-150: returns the constant
list (the JSON body is the object with this list under the key
models). -/
def get_available_models : List String := BIKE_MODELS

/-- `sum(pred["confidence"] for pred in result["predictions"])`,
main.py line 110. -/
def total_confidence (preds : List Prediction) : ℚ :=
  (preds.map Prediction.confidence).sum

/-- main.py lines 110-113: divide every confidence by the
pre-normalization sum, but only when that sum is strictly positive
(`if total_confidence > 0`); otherwise the list is left untouched. -/
def normalizePredictions (preds : List Prediction) : List Prediction :=
  if 0 < total_confidence preds then
    preds.map (fun q => { model := q.model, confidence := q.confidence / total_confidence preds })
  else
    preds

/-- What predict returns (main.py lines 115-118 and 136-139): the
predictions list plus the first element (or None) duplicated as
top_prediction. -/
structure DetectionResult where
  predictions : List Prediction
  top_prediction : Option Prediction
  deriving Repr, DecidableEq

/-- Outcome of the code inside the try block of predict (main.py lines
64-120): the remote chat-completion call, brace scanning, json.loads
and key lookups either raise some exception (modelled by its message)
or produce a parsed predictions list. -/
inductive AdapterOutcome where
  | error (msg : String)
  | parsed (predictions : List Prediction)

/-- The Bool comparison used by the argsort model: index i comes
before index j when its score is smaller, with ties broken by index
order. -/
def argsortLe (p : List ℚ) (i j : Nat) : Bool :=
  decide (p.getD i 0 < p.getD j 0 ∨ (p.getD i 0 = p.getD j 0 ∧ i ≤ j))

/-- np.argsort (main.py line 127, before the [-3:][::-1] slicing):
the indices 0..p.length-1 sorted so that scores are ascending. -/
def argsort (p : List ℚ) : List Nat :=
  (List.range p.length).mergeSort (argsortLe p)

/-- The fallback branch of predict, main.py lines 124-134: draw one
raw score per label, divide the whole vector by its sum, take the
indices of the 3 largest normalized scores in descending order
([-3:][::-1]), and build the result dicts. -/
def fallback (raw : Fin BIKE_MODELS.length → ℚ) : List Prediction :=
  let rawL := List.ofFn raw
  let p := rawL.map (fun x => x / rawL.sum)
  let idx := argsort p
  let top := (idx.drop (idx.length - 3)).reverse
  top.map (fun i => { model := BIKE_MODELS.getD i "", confidence := p.getD i 0 })

/-- BikeDetectionModel.predict, main.py lines 53-139.  `is_loaded` is
the object's lazy-initialization flag (False for a fresh process);
when it is false predict first runs load_model (lines 45-51), which
raises the missing-key ValueError when the environment variable is
unset or empty.  That raise happens before the try block, so it
escapes predict.  Inside the try block, an exception routes to the
fallback branch and a parsed reply is normalized and shaped (lines
110-118).  JPEG re-encoding (lines 60-62) is assumed to succeed. -/
def predict (is_loaded : Bool) (api_key : Option String) (outcome : AdapterOutcome)
    (raw : Fin BIKE_MODELS.length → ℚ) : Except String DetectionResult :=
  if !is_loaded && (api_key.getD "" == "") then
    .error "OPENAI_API_KEY環境変数が設定されていません"
  else
    match outcome with
    | .parsed preds =>
      let preds' := normalizePredictions preds
      .ok { predictions := preds', top_prediction := preds'.head? }
    | .error _ =>
      let results := fallback raw
      .ok { predictions := results, top_prediction := results.head? }

/-- Python str.startswith (`file.content_type.startswith("image/")`,
main.py line 156), modelled as a prefix test on the character lists so
that it is kernel-computable. -/
def startswith (s pre : String) : Bool :=
  pre.toList.isPrefixOf s.toList

/-- The upload handed to POST /detect: its declared content type and
filename. -/
structure UploadFile where
  content_type : String
  filename : String

/-- An exception live inside the route's try block: either the
HTTPException raised at line 157, or any other exception carrying its
str(e). -/
inductive InnerExc where
  | httpExc (status_code : Nat) (detail : String)
  | exc (msg : String)

/-- Python str(e): starlette's HTTPException prints as
"<status_code>: <detail>"; any other exception prints its message. -/
def strOfExc : InnerExc → String
  | .httpExc c d => toString c ++ ": " ++ d
  | .exc m => m

/-- The HTTP response produced for a POST /detect request: the 200
success JSON of lines 167-172, or the JSON error produced from a
raised HTTPException. -/
inductive HTTPResponse where
  | success (filename : String) (predictions : List Prediction) (top_prediction : Option Prediction)
  | error (status_code : Nat) (detail : String)
  deriving Repr, DecidableEq

/-- The body of the try block of detect_bike_model (main.py lines
155-172): content-type validation, decode (file.read + Image.open +
RGB conversion, abstracted as `decodeResult`), then the predict call.
The Bool records whether bike_model.predict was invoked. -/
def detectTry (file : UploadFile) (decodeResult : Except String Unit) (is_loaded : Bool)
    (api_key : Option String) (outcome : AdapterOutcome) (raw : Fin BIKE_MODELS.length → ℚ) :
    Except InnerExc DetectionResult × Bool :=
  if !(startswith file.content_type "image/") then
    (.error (.httpExc 400 "アップロードされたファイルは画像である必要があります"), false)
  else
    match decodeResult with
    | .error msg => (.error (.exc msg), false)
    | .ok _ =>
      match predict is_loaded api_key outcome raw with
      | .error msg => (.error (.exc msg), true)
      | .ok r => (.ok r, true)

/-- POST /detect, main.py lines 152-175: any exception escaping the
try body (the 400 HTTPException raised by validation included, since
HTTPException subclasses Exception) is caught by the route's
`except Exception` and re-raised as HTTPException(500, "画像処理中にエ
ラーが発生しました: " + str(e)).  The Bool again records whether the
adapter (bike_model.predict) was invoked. -/
def detect_bike_model (file : UploadFile) (decodeResult : Except String Unit) (is_loaded : Bool)
    (api_key : Option String) (outcome : AdapterOutcome) (raw : Fin BIKE_MODELS.length → ℚ) :
    HTTPResponse × Bool :=
  match detectTry file decodeResult is_loaded api_key outcome raw with
  | (.ok r, b) => (.success file.filename r.predictions r.top_prediction, b)
  | (.error e, b) => (.error 500 ("画像処理中にエラーが発生しました: " ++ strOfExc e), b)

/-! ### Helper lemmas -/

/-- Dividing every element by a constant divides the sum. -/
theorem sum_map_div (l : List ℚ) (t : ℚ) :
    (l.map (fun x => x / t)).sum = l.sum / t := by
  induction l with
  | nil => simp
  | cons a l ih => simp [ih, add_div]

/-- getD at an in-range index is the indexed element. -/
theorem getD_eq_elem (l : List ℚ) (i : Nat) (h : i < l.length) : l.getD i 0 = l[i] := by
  rw [List.getD_eq_getElem?_getD, List.getElem?_eq_getElem h]
  rfl

/-- Mapping position lookup over the index range reproduces the list. -/
theorem map_getD_range (l : List ℚ) :
    (List.range l.length).map (fun i => l.getD i 0) = l := by
  induction l with
  | nil => rfl
  | cons a l ih =>
    rw [List.length_cons, List.range_succ_eq_map, List.map_cons, List.map_map]
    simp only [List.getD_cons_zero, Function.comp_def, List.getD_cons_succ, List.cons.injEq]
    exact ⟨trivial, ih⟩

/-! ### Fallback lemmas -/

/-- The normalized score vector built by the fallback (main.py lines
124-125): each raw score divided by the sum of all raw scores. -/
def pvec (raw : Fin BIKE_MODELS.length → ℚ) : List ℚ :=
  (List.ofFn raw).map (fun x => x / (List.ofFn raw).sum)

/-- The indices the fallback selects: np.argsort(p)[-3:][::-1]. -/
def topIdx (raw : Fin BIKE_MODELS.length → ℚ) : List Nat :=
  ((argsort (pvec raw)).drop ((argsort (pvec raw)).length - 3)).reverse

theorem fallback_eq_top (raw : Fin BIKE_MODELS.length → ℚ) :
    fallback raw = (topIdx raw).map
      (fun i => { model := BIKE_MODELS.getD i "", confidence := (pvec raw).getD i 0 }) := rfl

theorem pvec_length (raw : Fin BIKE_MODELS.length → ℚ) : (pvec raw).length = 10 := by
  simp [pvec]

theorem pvec_sum (raw : Fin BIKE_MODELS.length → ℚ) (h : (List.ofFn raw).sum ≠ 0) :
    (pvec raw).sum = 1 := by
  rw [pvec, sum_map_div, div_self h]

theorem pvec_nonneg (raw : Fin BIKE_MODELS.length → ℚ) (hnn : ∀ i, 0 ≤ raw i)
    (hpos : 0 < (List.ofFn raw).sum) : ∀ x ∈ pvec raw, 0 ≤ x := by
  intro x hx
  rw [pvec, List.mem_map] at hx
  obtain ⟨y, hy, rfl⟩ := hx
  have hy0 : 0 ≤ y := by
    rw [List.mem_ofFn] at hy
    obtain ⟨i, rfl⟩ := hy
    exact hnn i
  exact div_nonneg hy0 (le_of_lt hpos)

theorem argsortLe_trans (p : List ℚ) (a b c : Nat) :
    argsortLe p a b → argsortLe p b c → argsortLe p a c := by
  simp only [argsortLe, decide_eq_true_eq]
  rintro (hab | ⟨hab, hab2⟩) (hbc | ⟨hbc, hbc2⟩)
  · exact Or.inl (lt_trans hab hbc)
  · exact Or.inl (by rw [← hbc]; exact hab)
  · exact Or.inl (by rw [hab]; exact hbc)
  · exact Or.inr ⟨by rw [hab, hbc], Nat.le_trans hab2 hbc2⟩

theorem argsortLe_total (p : List ℚ) (a b : Nat) :
    argsortLe p a b || argsortLe p b a := by
  simp only [argsortLe, Bool.or_eq_true, decide_eq_true_eq]
  rcases lt_trichotomy (p.getD a 0) (p.getD b 0) with h | h | h
  · exact Or.inl (Or.inl h)
  · rcases Nat.le_total a b with h2 | h2
    · exact Or.inl (Or.inr ⟨h, h2⟩)
    · exact Or.inr (Or.inr ⟨h.symm, h2⟩)
  · exact Or.inr (Or.inl h)

theorem argsort_perm (p : List ℚ) : List.Perm (argsort p) (List.range p.length) :=
  List.mergeSort_perm (List.range p.length) (argsortLe p)

theorem mem_argsort (p : List ℚ) (i : Nat) : i ∈ argsort p ↔ i < p.length := by
  rw [argsort, List.mem_mergeSort, List.mem_range]

theorem argsort_length (p : List ℚ) : (argsort p).length = p.length := by
  rw [argsort, List.length_mergeSort, List.length_range]

theorem argsort_nodup (p : List ℚ) : (argsort p).Nodup :=
  (argsort_perm p).nodup_iff.mpr (List.nodup_range _)

theorem argsort_pairwise (p : List ℚ) :
    (argsort p).Pairwise (fun i j => argsortLe p i j = true) :=
  List.sorted_mergeSort (argsortLe_trans p) (argsortLe_total p) (List.range p.length)

/-- Everything in the taken prefix of the argsort scores at most
everything in the dropped suffix: the suffix holds the largest
scores. -/
theorem argsort_take_le_drop (p : List ℚ) (k i j : Nat)
    (hi : i ∈ (argsort p).take k) (hj : j ∈ (argsort p).drop k) :
    p.getD i 0 ≤ p.getD j 0 := by
  have hp := argsort_pairwise p
  rw [← List.take_append_drop k (argsort p), List.pairwise_append] at hp
  have h := hp.2.2 i hi j hj
  rw [argsortLe, decide_eq_true_eq] at h
  rcases h with h | ⟨h, _⟩
  · exact le_of_lt h
  · exact le_of_eq h

theorem topIdx_length (raw : Fin BIKE_MODELS.length → ℚ) : (topIdx raw).length = 3 := by
  simp [topIdx, argsort_length, pvec_length]

theorem mem_topIdx_lt (raw : Fin BIKE_MODELS.length → ℚ) (i : Nat) (h : i ∈ topIdx raw) :
    i < 10 := by
  have hm : i ∈ argsort (pvec raw) :=
    List.mem_of_mem_drop (List.mem_reverse.mp h)
  rw [mem_argsort, pvec_length] at hm
  exact hm

theorem topIdx_nodup (raw : Fin BIKE_MODELS.length → ℚ) : (topIdx raw).Nodup :=
  List.nodup_reverse.mpr ((List.drop_sublist _ _).nodup (argsort_nodup _))

theorem topIdx_pairwise (raw : Fin BIKE_MODELS.length → ℚ) :
    (topIdx raw).Pairwise (fun i j => argsortLe (pvec raw) j i = true) := by
  rw [topIdx, List.pairwise_reverse]
  exact (argsort_pairwise (pvec raw)).sublist (List.drop_sublist _ _)

theorem fallback_length (raw : Fin BIKE_MODELS.length → ℚ) : (fallback raw).length = 3 := by
  rw [fallback_eq_top, List.length_map, topIdx_length]

theorem fallback_models_mem (raw : Fin BIKE_MODELS.length → ℚ) :
    ∀ q ∈ fallback raw, q.model ∈ BIKE_MODELS := by
  intro q hq
  rw [fallback_eq_top, List.mem_map] at hq
  obtain ⟨i, hi, rfl⟩ := hq
  have h10 : i < BIKE_MODELS.length := mem_topIdx_lt raw i hi
  have : BIKE_MODELS.getD i "" = BIKE_MODELS[i] := by
    rw [List.getD_eq_getElem?_getD, List.getElem?_eq_getElem h10]
    rfl
  rw [this]
  exact List.getElem_mem h10

/-- The ten labels are pairwise distinct, so position lookup is
injective on indices below 10. -/
theorem bike_models_getD_inj : ∀ i ∈ List.range 10, ∀ j ∈ List.range 10,
    BIKE_MODELS.getD i "" = BIKE_MODELS.getD j "" → i = j := by decide

theorem fallback_models_nodup (raw : Fin BIKE_MODELS.length → ℚ) :
    ((fallback raw).map Prediction.model).Nodup := by
  rw [fallback_eq_top, List.map_map]
  have hc : (Prediction.model ∘ fun i =>
      ({ model := BIKE_MODELS.getD i "", confidence := (pvec raw).getD i 0 } : Prediction))
      = fun i => BIKE_MODELS.getD i "" := rfl
  rw [hc]
  refine List.Nodup.map_on ?_ (topIdx_nodup raw)
  intro i hi j hj hEq
  exact bike_models_getD_inj i (List.mem_range.mpr (mem_topIdx_lt raw i hi)) j
    (List.mem_range.mpr (mem_topIdx_lt raw j hj)) hEq

theorem fallback_sorted (raw : Fin BIKE_MODELS.length → ℚ) :
    (fallback raw).Pairwise (fun a b => b.confidence ≤ a.confidence) := by
  rw [fallback_eq_top, List.pairwise_map]
  refine (topIdx_pairwise raw).imp ?_
  intro i j h
  rw [argsortLe, decide_eq_true_eq] at h
  rcases h with h | ⟨h, _⟩
  · exact le_of_lt h
  · exact le_of_eq h

/-- A label left out of the fallback's top 3 has a normalized score at
most every returned confidence: the fallback really picks the 3
highest-scoring labels. -/
theorem fallback_dominates (raw : Fin BIKE_MODELS.length → ℚ) (i : Nat)
    (hi : i < BIKE_MODELS.length)
    (hout : BIKE_MODELS.getD i "" ∉ (fallback raw).map Prediction.model) :
    ∀ q ∈ fallback raw, (pvec raw).getD i 0 ≤ q.confidence := by
  intro q hq
  rw [fallback_eq_top, List.mem_map] at hq
  obtain ⟨j, hj, rfl⟩ := hq
  have hiNot : i ∉ topIdx raw := by
    intro hmem
    apply hout
    rw [fallback_eq_top, List.map_map]
    exact List.mem_map.mpr ⟨i, hmem, rfl⟩
  have hiArg : i ∈ argsort (pvec raw) := by
    rw [mem_argsort, pvec_length]
    exact hi
  have hiTake : i ∈ (argsort (pvec raw)).take ((argsort (pvec raw)).length - 3) := by
    rcases List.mem_append.mp
        (by rw [List.take_append_drop ((argsort (pvec raw)).length - 3) (argsort (pvec raw))]
            exact hiArg) with h | h
    · exact h
    · refine absurd ?_ hiNot
      rw [topIdx, List.mem_reverse]
      exact h
  have hjDrop : j ∈ (argsort (pvec raw)).drop ((argsort (pvec raw)).length - 3) := by
    rw [topIdx] at hj
    exact List.mem_reverse.mp hj
  exact argsort_take_le_drop (pvec raw) _ i j hiTake hjDrop

/-- The sum of the confidences the fallback returns is the sum of the
normalized scores of the selected indices. -/
theorem fallback_conf_sum (raw : Fin BIKE_MODELS.length → ℚ) :
    ((fallback raw).map Prediction.confidence).sum =
      ((topIdx raw).map (fun i => (pvec raw).getD i 0)).sum := by
  rw [fallback_eq_top, List.map_map]
  rfl

/-- Summing the looked-up scores over the argsort gives the sum of the
score vector. -/
theorem argsort_map_sum (p : List ℚ) :
    ((argsort p).map (fun i => p.getD i 0)).sum = p.sum := by
  have h := (argsort_perm p).map (fun i => p.getD i 0)
  rw [h.sum_eq, map_getD_range]

/-- With nonnegative raw scores the selected normalized scores sum to
at most the whole vector's sum, which is 1. -/
theorem topIdx_sum_le (raw : Fin BIKE_MODELS.length → ℚ) (hnn : ∀ i, 0 ≤ raw i)
    (hpos : 0 < (List.ofFn raw).sum) :
    ((topIdx raw).map (fun i => (pvec raw).getD i 0)).sum ≤ 1 := by
  have hsplit : (((argsort (pvec raw)).take ((argsort (pvec raw)).length - 3)).map
        (fun i => (pvec raw).getD i 0)).sum +
      (((argsort (pvec raw)).drop ((argsort (pvec raw)).length - 3)).map
        (fun i => (pvec raw).getD i 0)).sum = (pvec raw).sum := by
    rw [← List.sum_append, ← List.map_append, List.take_append_drop, argsort_map_sum]
  have htake : 0 ≤ (((argsort (pvec raw)).take ((argsort (pvec raw)).length - 3)).map
      (fun i => (pvec raw).getD i 0)).sum := by
    refine List.sum_nonneg ?_
    intro x hx
    rw [List.mem_map] at hx
    obtain ⟨i, hi, rfl⟩ := hx
    have hiArg : i ∈ argsort (pvec raw) := List.mem_of_mem_take hi
    rw [mem_argsort] at hiArg
    rw [getD_eq_elem _ _ hiArg]
    exact pvec_nonneg raw hnn hpos _ (List.getElem_mem hiArg)
  have hrev : ((topIdx raw).map (fun i => (pvec raw).getD i 0)).sum =
      (((argsort (pvec raw)).drop ((argsort (pvec raw)).length - 3)).map
        (fun i => (pvec raw).getD i 0)).sum := by
    rw [topIdx, List.map_reverse, List.sum_reverse]
  rw [hrev, ← pvec_sum raw (ne_of_gt hpos)]
  linarith

/-! ### Claims -/

/-- C9: GET /models always returns exactly the 10 configured candidate
labels, in the fixed defined order.  The handler is a constant of the
embedding (it closes over no mutable state and nothing in the program
writes to BIKE_MODELS), so it is byte-identical across calls. -/
theorem claim_models_endpoint_fixed :
    get_available_models =
      ["Honda CBR600RR", "Yamaha YZF-R1", "Kawasaki Ninja ZX-10R", "Suzuki GSX-R1000",
       "Ducati Panigale V4", "BMW S1000RR", "Aprilia RSV4", "KTM RC 390",
       "Triumph Daytona 675", "MV Agusta F3"] ∧
    get_available_models.length = 10 ∧ get_available_models = BIKE_MODELS :=
  ⟨rfl, rfl, rfl⟩

/-- C6 counterexample: with no API key configured (os.getenv returns
None) and a fresh model object, predict does NOT produce fallback
predictions: load_model's ValueError is raised before the try block,
escapes predict, and the route's catch-all turns it into an HTTP 500.
Here the remote outcome is a network-style exception, exactly the
situation the claim says would fall back. -/
theorem claim_missing_key_counterexample :
    predict false none (.error "network failure") (fun _ => 1) =
      .error "OPENAI_API_KEY環境変数が設定されていません" ∧
    detect_bike_model ⟨"image/jpeg", "bike.jpg"⟩ (.ok ()) false none
        (.error "network failure") (fun _ => 1) =
      (.error 500 "画像処理中にエラーが発生しました: OPENAI_API_KEY環境変数が設定されていません", true) :=
  ⟨rfl, rfl⟩

/-- C6 (amended): the fallback is triggered by any exception raised
inside predict's try block (remote call or parsing) — provided the
client is initialized, i.e. the API key is present (or the model was
already loaded); a missing API key instead raises before the try
block, so the missing-key error propagates out of predict to the HTTP
layer. -/
theorem claim_missing_key_propagates (api_key : Option String) (msg : String)
    (raw : Fin BIKE_MODELS.length → ℚ) (hk : api_key.getD "" ≠ "") :
    predict false api_key (.error msg) raw =
      .ok { predictions := fallback raw, top_prediction := (fallback raw).head? } ∧
    predict false none (.error msg) raw =
      .error "OPENAI_API_KEY環境変数が設定されていません" := by
  constructor
  · simp [predict, hk]
  · rfl

/-- C6 witness: the amended theorem applied at a present key and a
network-failure outcome. -/
theorem claim_missing_key_propagates_witness :
    predict false (some "sk-test") (.error "network failure") (fun _ => 1) =
      .ok { predictions := fallback (fun _ => 1),
            top_prediction := (fallback (fun _ => 1)).head? } ∧
    predict false none (.error "network failure") (fun _ => 1) =
      .error "OPENAI_API_KEY環境変数が設定されていません" :=
  claim_missing_key_propagates (some "sk-test") "network failure" (fun _ => 1) (by decide)

/-- C10: a parsed reply with an empty predictions list makes predict
return the empty list with top_prediction None (the sum over the empty
list is 0, so normalization is skipped, and the Python conditional
expression yields None), and POST /detect then answers with the
200-shaped success body carrying zero predictions and a null
top_prediction. -/
theorem claim_empty_predictions_ok (file : UploadFile) (api_key : Option String)
    (raw : Fin BIKE_MODELS.length → ℚ)
    (hct : startswith file.content_type "image/" = true) :
    predict true api_key (.parsed []) raw =
      .ok { predictions := [], top_prediction := none } ∧
    detect_bike_model file (.ok ()) true api_key (.parsed []) raw =
      (.success file.filename [] none, true) := by
  refine ⟨rfl, ?_⟩
  simp [detect_bike_model, detectTry, hct, predict, normalizePredictions, total_confidence]

/-- C10 witness: the theorem applied to a JPEG-typed upload. -/
theorem claim_empty_predictions_ok_witness :
    predict true (some "sk-test") (.parsed []) (fun _ => 1) =
      .ok { predictions := [], top_prediction := none } ∧
    detect_bike_model ⟨"image/jpeg", "bike.jpg"⟩ (.ok ()) true (some "sk-test")
        (.parsed []) (fun _ => 1) =
      (.success "bike.jpg" [] none, true) :=
  claim_empty_predictions_ok ⟨"image/jpeg", "bike.jpg"⟩ (some "sk-test") (fun _ => 1) (by decide)

/-- C2 counterexample: the code skips normalization whenever the
pre-normalization sum is not strictly positive (`if total_confidence >
0`), not only when it is exactly 0.  For the one-element parsed reply
with confidence -1 the sum is -1 ≠ 0, so the claim says the returned
confidence is (-1)/(-1) = 1, but predict returns it unchanged as -1. -/
theorem claim_success_normalization_counterexample :
    total_confidence [⟨"Honda CBR600RR", -1⟩] ≠ 0 ∧
    predict true (some "sk-test") (.parsed [⟨"Honda CBR600RR", -1⟩]) (fun _ => 1) =
      .ok { predictions := [⟨"Honda CBR600RR", -1⟩],
            top_prediction := some ⟨"Honda CBR600RR", -1⟩ } ∧
    (-1 : ℚ) / total_confidence [⟨"Honda CBR600RR", -1⟩] ≠ -1 := by
  refine ⟨by norm_num [total_confidence], ?_, by norm_num [total_confidence]⟩
  norm_num [predict, normalizePredictions, total_confidence]

/-- C2 (amended): on the adapter success path, when the
pre-normalization sum of the parsed confidences is strictly positive,
each returned confidence is the parsed confidence divided by that sum
and the returned confidences sum to 1; when the sum is not strictly
positive (in particular when it is exactly 0) normalization is skipped
and the confidences are returned as the model gave them.  The spec's
concrete example ([2,1,1] ↦ [1/2,1/4,1/4], top Honda CBR600RR) is the
witness below. -/
theorem claim_success_normalization (api_key : Option String)
    (preds : List Prediction) (raw : Fin BIKE_MODELS.length → ℚ) :
    (0 < total_confidence preds →
      predict true api_key (.parsed preds) raw =
        .ok { predictions :=
                preds.map (fun q => ⟨q.model, q.confidence / total_confidence preds⟩),
              top_prediction :=
                (preds.map (fun q => ⟨q.model, q.confidence / total_confidence preds⟩)).head? } ∧
      total_confidence
        (preds.map (fun q => ⟨q.model, q.confidence / total_confidence preds⟩)) = 1) ∧
    (total_confidence preds ≤ 0 →
      predict true api_key (.parsed preds) raw =
        .ok { predictions := preds, top_prediction := preds.head? }) := by
  constructor
  · intro h
    constructor
    · simp [predict, normalizePredictions, h]
    · have : (preds.map (fun q => (⟨q.model, q.confidence / total_confidence preds⟩ : Prediction))).map
          Prediction.confidence
          = (preds.map Prediction.confidence).map (fun x => x / total_confidence preds) := by
        simp [Function.comp]
      rw [total_confidence, this, sum_map_div]
      exact div_self (ne_of_gt h)
  · intro h
    simp [predict, normalizePredictions, not_lt.mpr h]

/-- C2 witness: the spec's deterministic-stub example, confidences
[2,1,1] for Honda CBR600RR / Yamaha YZF-R1 / Ducati Panigale V4. -/
theorem claim_success_normalization_witness :
    predict true (some "sk-test")
        (.parsed [⟨"Honda CBR600RR", 2⟩, ⟨"Yamaha YZF-R1", 1⟩, ⟨"Ducati Panigale V4", 1⟩])
        (fun _ => 1) =
      .ok { predictions :=
              [⟨"Honda CBR600RR", 1/2⟩, ⟨"Yamaha YZF-R1", 1/4⟩, ⟨"Ducati Panigale V4", 1/4⟩],
            top_prediction := some ⟨"Honda CBR600RR", 1/2⟩ } := by
  have h := (claim_success_normalization (some "sk-test")
      [⟨"Honda CBR600RR", 2⟩, ⟨"Yamaha YZF-R1", 1⟩, ⟨"Ducati Panigale V4", 1⟩]
      (fun _ => 1)).1 (by norm_num [total_confidence])
  rw [h.1]
  norm_num [total_confidence]

/-- C3: an exception raised inside predict's try block (remote call or
response parsing) is absorbed: with the client initialisable
(is_loaded already true, or the API key present), POST /detect still
answers with the 200-shaped success body whose predictions are the
fallback's, which are exactly 3 predictions drawn from the fixed label
set. -/
theorem claim_adapter_error_absorbed (file : UploadFile) (is_loaded : Bool)
    (api_key : Option String) (msg : String) (raw : Fin BIKE_MODELS.length → ℚ)
    (hct : startswith file.content_type "image/" = true)
    (hk : is_loaded = true ∨ api_key.getD "" ≠ "") :
    detect_bike_model file (.ok ()) is_loaded api_key (.error msg) raw =
      (.success file.filename (fallback raw) ((fallback raw).head?), true) ∧
    (fallback raw).length = 3 ∧
    ∀ q ∈ fallback raw, q.model ∈ BIKE_MODELS := by
  have hpred : predict is_loaded api_key (.error msg) raw =
      .ok { predictions := fallback raw, top_prediction := (fallback raw).head? } := by
    rcases hk with h | h
    · subst h
      rfl
    · cases is_loaded
      · simp [predict, h]
      · rfl
  refine ⟨?_, fallback_length raw, fallback_models_mem raw⟩
  simp [detect_bike_model, detectTry, hct, hpred]

/-- C3 witness: a network-style adapter exception on an image upload
with the key configured. -/
theorem claim_adapter_error_absorbed_witness :
    detect_bike_model ⟨"image/png", "bike.png"⟩ (.ok ()) true (some "sk-test")
        (.error "connection reset") (fun _ => 1) =
      (.success "bike.png" (fallback (fun _ => 1)) ((fallback (fun _ => 1)).head?), true) ∧
    (fallback (fun _ => 1)).length = 3 ∧
    ∀ q ∈ fallback (fun _ => 1), q.model ∈ BIKE_MODELS :=
  claim_adapter_error_absorbed ⟨"image/png", "bike.png"⟩ true (some "sk-test")
    "connection reset" (fun _ => 1) (by decide) (Or.inl rfl)

/-- C4: for a fallback invocation on raw scores with a positive sum
(uniform draws have this almost surely), the fallback: returns exactly
3 predictions; normalizes the full 10-element vector to sum to 1;
returns pairwise-distinct labels, all members of the fixed 10-label
set; lists them in descending confidence order; and selects the 3
highest-scoring labels (every label left out has a normalized score at
most every returned confidence). -/
theorem claim_fallback_top3 (raw : Fin BIKE_MODELS.length → ℚ)
    (hpos : 0 < (List.ofFn raw).sum) :
    (fallback raw).length = 3 ∧
    (pvec raw).sum = 1 ∧
    ((fallback raw).map Prediction.model).Nodup ∧
    (∀ q ∈ fallback raw, q.model ∈ BIKE_MODELS) ∧
    (fallback raw).Pairwise (fun a b => b.confidence ≤ a.confidence) ∧
    ∀ i, i < BIKE_MODELS.length →
      BIKE_MODELS.getD i "" ∉ (fallback raw).map Prediction.model →
      ∀ q ∈ fallback raw, (pvec raw).getD i 0 ≤ q.confidence :=
  ⟨fallback_length raw, pvec_sum raw (ne_of_gt hpos), fallback_models_nodup raw,
    fallback_models_mem raw, fallback_sorted raw,
    fun i hi hout => fallback_dominates raw i hi hout⟩

/-- The all-ones raw vector used by several witnesses: its sum is
10. -/
theorem ofFn_one_sum : (List.ofFn (fun _ : Fin BIKE_MODELS.length => (1 : ℚ))).sum = 10 := by
  rw [List.ofFn_const]
  rw [show BIKE_MODELS.length = 10 from rfl]
  rw [List.sum_replicate, nsmul_eq_mul]
  norm_num

/-- On the all-ones raw vector the normalized score vector is ten
copies of 1/10. -/
theorem pvec_one : pvec (fun _ => 1) = List.replicate 10 (1 / 10 : ℚ) := by
  rw [pvec, ofFn_one_sum, List.ofFn_const]
  rw [show BIKE_MODELS.length = 10 from rfl]
  rw [List.map_replicate]

/-- C4 witness: the all-ones raw score vector. -/
theorem claim_fallback_top3_witness :
    (0 < (List.ofFn (fun _ : Fin BIKE_MODELS.length => (1 : ℚ))).sum) ∧
    ((fallback (fun _ => 1)).length = 3 ∧
     (pvec (fun _ => 1)).sum = 1 ∧
     ((fallback (fun _ => 1)).map Prediction.model).Nodup ∧
     (∀ q ∈ fallback (fun _ => 1), q.model ∈ BIKE_MODELS) ∧
     (fallback (fun _ => 1)).Pairwise (fun a b => b.confidence ≤ a.confidence) ∧
     ∀ i, i < BIKE_MODELS.length →
       BIKE_MODELS.getD i "" ∉ (fallback (fun _ => 1)).map Prediction.model →
       ∀ q ∈ fallback (fun _ => 1), (pvec (fun _ => 1)).getD i 0 ≤ q.confidence) := by
  have hpos : 0 < (List.ofFn (fun _ : Fin BIKE_MODELS.length => (1 : ℚ))).sum := by
    rw [ofFn_one_sum]
    norm_num
  exact ⟨hpos, claim_fallback_top3 (fun _ => 1) hpos⟩

/-- C5 counterexample: on the all-ones raw vector every normalized
score is 1/10, so the 3 returned confidences sum to 3/10, not 1.  The
full 10-element vector sums to 1, but the returned top-3 slice does
not. -/
theorem claim_fallback_sum_counterexample :
    ((fallback (fun _ => 1)).map Prediction.confidence).sum = 3 / 10 ∧
    ((3 : ℚ) / 10) ≠ 1 := by
  constructor
  · have hp : pvec (fun _ => 1) = List.replicate 10 (1 / 10 : ℚ) := pvec_one
    have hone : ∀ q ∈ fallback (fun _ => 1), q.confidence = 1 / 10 := by
      intro q hq
      rw [fallback_eq_top, List.mem_map] at hq
      obtain ⟨i, hi, rfl⟩ := hq
      have h10 : i < (pvec (fun _ => 1)).length := by
        rw [pvec_length]
        exact mem_topIdx_lt _ i hi
      rw [getD_eq_elem _ _ h10]
      have h10' : i < (List.replicate 10 (1 / 10 : ℚ)).length := by
        rw [← hp]
        exact h10
      simp only [hp]
      rw [List.getElem_replicate]
    have hsum := List.sum_eq_card_nsmul ((fallback (fun _ => 1)).map Prediction.confidence)
      (1 / 10 : ℚ) (by
        intro x hx
        rw [List.mem_map] at hx
        obtain ⟨q, hq, rfl⟩ := hx
        exact hone q hq)
    rw [hsum, List.length_map, fallback_length, nsmul_eq_mul]
    norm_num
  · norm_num

/-- C5 (amended): for a fallback invocation on nonnegative raw scores
with positive sum, the FULL normalized 10-element vector sums to 1;
the confidences of the 3 returned predictions sum to at most 1 (they
equal the sum of the 3 selected normalized scores, which drops the 7
unselected ones), and in general not to 1 — see the counterexample. -/
theorem claim_fallback_sum_bound (raw : Fin BIKE_MODELS.length → ℚ)
    (hnn : ∀ i, 0 ≤ raw i) (hpos : 0 < (List.ofFn raw).sum) :
    (pvec raw).sum = 1 ∧
    ((fallback raw).map Prediction.confidence).sum ≤ 1 := by
  refine ⟨pvec_sum raw (ne_of_gt hpos), ?_⟩
  rw [fallback_conf_sum]
  exact topIdx_sum_le raw hnn hpos

/-- C5 witness: the bound applied to the all-ones raw vector. -/
theorem claim_fallback_sum_bound_witness :
    (pvec (fun _ => 1)).sum = 1 ∧
    ((fallback (fun _ => 1)).map Prediction.confidence).sum ≤ 1 :=
  claim_fallback_sum_bound (fun _ => 1) (fun _ => by norm_num) (by
    rw [ofFn_one_sum]
    norm_num)

/-- C7 counterexample: the success path returns however many
predictions the parsed reply contained — here a 2-element parsed reply
comes back with 2 predictions, not 3 (the sum is 1, so normalization
divides by 1 and returns the same confidences). -/
theorem claim_three_predictions_counterexample :
    predict true (some "sk-test")
        (.parsed [⟨"Honda CBR600RR", 3/5⟩, ⟨"Yamaha YZF-R1", 2/5⟩]) (fun _ => 1) =
      .ok { predictions := [⟨"Honda CBR600RR", 3/5⟩, ⟨"Yamaha YZF-R1", 2/5⟩],
            top_prediction := some ⟨"Honda CBR600RR", 3/5⟩ } ∧
    ([⟨"Honda CBR600RR", (3 : ℚ)/5⟩, ⟨"Yamaha YZF-R1", 2/5⟩] : List Prediction).length ≠ 3 := by
  constructor
  · norm_num [predict, normalizePredictions, total_confidence]
  · decide

/-- C7 (amended): every detection result predict returns has
top_prediction equal to the head of its prediction list (None when
empty); the fallback path always returns exactly 3 predictions, but
the success path returns exactly as many predictions as the parsed
reply contained (nothing enforces 3 there). -/
theorem claim_result_shape (is_loaded : Bool) (api_key : Option String)
    (outcome : AdapterOutcome) (raw : Fin BIKE_MODELS.length → ℚ) (r : DetectionResult)
    (hok : predict is_loaded api_key outcome raw = .ok r) :
    r.top_prediction = r.predictions.head? ∧
    (∀ msg, outcome = .error msg → r.predictions.length = 3) ∧
    (∀ preds, outcome = .parsed preds → r.predictions.length = preds.length) := by
  rw [predict.eq_def] at hok
  split at hok
  · exact absurd hok (by simp)
  · cases outcome with
    | parsed preds =>
      simp only [Except.ok.injEq] at hok
      subst hok
      refine ⟨rfl, ?_, ?_⟩
      · intro msg h
        exact AdapterOutcome.noConfusion h
      · intro preds2 h
        injection h with h2
        subst h2
        simp only [normalizePredictions]
        split
        · exact List.length_map _ _
        · rfl
    | error msg0 =>
      simp only [Except.ok.injEq] at hok
      subst hok
      refine ⟨rfl, ?_, ?_⟩
      · intro msg h
        exact fallback_length raw
      · intro preds h
        exact AdapterOutcome.noConfusion h

/-- C7 witness: the shape facts for a concrete fallback-path result. -/
theorem claim_result_shape_witness :
    ({ predictions := fallback (fun _ => 1),
       top_prediction := (fallback (fun _ => 1)).head? } : DetectionResult).top_prediction =
      ({ predictions := fallback (fun _ => 1),
         top_prediction := (fallback (fun _ => 1)).head? } : DetectionResult).predictions.head? ∧
    (∀ msg, AdapterOutcome.error "boom" = AdapterOutcome.error msg →
      ({ predictions := fallback (fun _ => 1),
         top_prediction := (fallback (fun _ => 1)).head? } : DetectionResult).predictions.length = 3) ∧
    (∀ preds, AdapterOutcome.error "boom" = AdapterOutcome.parsed preds →
      ({ predictions := fallback (fun _ => 1),
         top_prediction := (fallback (fun _ => 1)).head? } : DetectionResult).predictions.length =
        preds.length) :=
  claim_result_shape true (some "sk-test") (.error "boom") (fun _ => 1)
    { predictions := fallback (fun _ => 1),
      top_prediction := (fallback (fun _ => 1)).head? } rfl

/-- C1: a POST /detect whose declared content type does not start with
"image/" never invokes BikeDetectionModel.predict (the Bool component
is false), but the response status is 500, not the claimed 4xx: the
HTTPException(400) raised by validation is itself an Exception, so the
route's catch-all re-wraps it (str(e) is "400: <detail>") into the
500-level error. -/
theorem claim_nonimage_rewrapped_500 (file : UploadFile)
    (decodeResult : Except String Unit) (is_loaded : Bool) (api_key : Option String)
    (outcome : AdapterOutcome) (raw : Fin BIKE_MODELS.length → ℚ)
    (hct : startswith file.content_type "image/" = false) :
    detect_bike_model file decodeResult is_loaded api_key outcome raw =
      (.error 500 "画像処理中にエラーが発生しました: 400: アップロードされたファイルは画像である必要があります",
       false) := by
  simp only [detect_bike_model, detectTry, hct, strOfExc, Bool.not_false, if_true]
  rfl

/-- C1 witness: a text/plain upload is answered with the re-wrapped
500 and the adapter is not invoked. -/
theorem claim_nonimage_rewrapped_500_witness :
    detect_bike_model ⟨"text/plain", "notes.txt"⟩ (.ok ()) false none
        (.parsed []) (fun _ => 1) =
      (.error 500 "画像処理中にエラーが発生しました: 400: アップロードされたファイルは画像である必要があります",
       false) :=
  claim_nonimage_rewrapped_500 ⟨"text/plain", "notes.txt"⟩ (.ok ()) false none
    (.parsed []) (fun _ => 1) (by decide)

/-- C8: an image-content-typed upload whose bytes fail to decode
(Image.open raises with message msg) is answered with a 500 whose
detail is the fixed Japanese prefix followed by the decode-failure
message, so the decode-failure indication is contained in the detail;
the handler is a total function, so the process does not crash, and
the adapter is not invoked. -/
theorem claim_decode_error_500 (file : UploadFile) (msg : String) (is_loaded : Bool)
    (api_key : Option String) (outcome : AdapterOutcome)
    (raw : Fin BIKE_MODELS.length → ℚ)
    (hct : startswith file.content_type "image/" = true) :
    detect_bike_model file (.error msg) is_loaded api_key outcome raw =
      (.error 500 ("画像処理中にエラーが発生しました: " ++ msg), false) ∧
    ∃ pre, "画像処理中にエラーが発生しました: " ++ msg = pre ++ msg := by
  refine ⟨?_, ⟨"画像処理中にエラーが発生しました: ", rfl⟩⟩
  simp [detect_bike_model, detectTry, hct, strOfExc]

/-- C8 witness: a PNG-typed upload with corrupt bytes. -/
theorem claim_decode_error_500_witness :
    detect_bike_model ⟨"image/png", "broken.png"⟩
        (.error "cannot identify image file") false none (.parsed []) (fun _ => 1) =
      (.error 500 ("画像処理中にエラーが発生しました: " ++ "cannot identify image file"),
       false) ∧
    ∃ pre, "画像処理中にエラーが発生しました: " ++ "cannot identify image file" =
      pre ++ "cannot identify image file" :=
  claim_decode_error_500 ⟨"image/png", "broken.png"⟩ "cannot identify image file" false none
    (.parsed []) (fun _ => 1) (by decide)

end BikeDetection
